import Mathlib

/-!
Verification development for the PR-monitor dashboard core
(source: src/pr_monitor/app.py).

The Python source is shallowly embedded below: every definition mirrors a
specific function or code region of app.py (cited by line numbers in the
doc comments).  Network calls are modelled by passing the responses the
code would receive as explicit arguments; a non-2xx response or a caught
exception is modelled by an Option being none (the code treats both by
substituting its default result).  Python string `.lower()` is modelled
for the character set actually exercised (ASCII) by mapping Char.toLower,
and Python substring membership `needle in hay` by an executable
list-infix test.
-/

namespace PRMon

/-! ## Generic string helpers (model Python primitives) -/

/-- Model of Python `s.lower()` (ASCII letters, which is what logins,
labels and query labels use). -/
def lowerStr (s : String) : String := String.mk (s.data.map Char.toLower)

/-- Does the second list occur as a leading segment of the first? -/
def startsWithList : List Char → List Char → Bool
  | _, [] => true
  | [], _ :: _ => false
  | c :: cs, d :: ds => (c == d) && startsWithList cs ds

/-- Does the needle occur contiguously anywhere in the haystack? -/
def containsList (needle : List Char) : List Char → Bool
  | [] => startsWithList [] needle
  | c :: cs => startsWithList (c :: cs) needle || containsList needle cs

/-- Model of Python substring membership `needle in hay`. -/
def strContains (hay needle : String) : Bool := containsList needle.data hay.data

/-- Helper for `pySplitWs`: walk the characters, `acc` holds the characters
of the token currently being read, in reverse. -/
def splitWsGo : List Char → List Char → List String
  | [], acc => if acc.isEmpty then [] else [String.mk acc.reverse]
  | c :: cs, acc =>
    if c.isWhitespace then
      (if acc.isEmpty then [] else [String.mk acc.reverse]) ++ splitWsGo cs []
    else splitWsGo cs (c :: acc)

/-- Model of Python `s.split()` with no argument: split on runs of
whitespace, dropping empty tokens (app.py line 171). -/
def pySplitWs (s : String) : List String := splitWsGo s.data []

/-- Helper for `pySplitSlash`: `acc` holds the characters of the token
currently being read, in reverse. -/
def splitSlashGo : List Char → List Char → List String
  | [], acc => [String.mk acc.reverse]
  | c :: cs, acc =>
    if c == '/' then String.mk acc.reverse :: splitSlashGo cs []
    else splitSlashGo cs (c :: acc)

/-- Model of Python `s.split("/")`: split on every slash, keeping empty
tokens (app.py line 446). -/
def pySplitSlash (s : String) : List String := splitSlashGo s.data []

/-- Model of Python `s.rstrip("/")` (app.py line 446). -/
def rstripSlash (s : String) : String :=
  String.mk (((s.data.reverse).dropWhile (fun c => c == '/')).reverse)

/-- Python truthiness of a string: empty strings are falsy. -/
def pyTruthy (s : String) : Bool := s != ""

/-! ## Data model -/

/-- class Priority(IntEnum), app.py lines 23-27: HIGH = 1, MEDIUM = 2,
LOW = 3; a lower number means a higher (more urgent) priority. -/
inductive Priority where
  | HIGH
  | MEDIUM
  | LOW
deriving DecidableEq, Repr

/-- The IntEnum value of a priority (app.py lines 25-27). -/
def Priority.val : Priority → Nat
  | .HIGH => 1
  | .MEDIUM => 2
  | .LOW => 3

/-- An entry of a PR object `assignees` list (only the login is read). -/
structure User where
  login : String
deriving DecidableEq, Repr

/-- An entry of a PR object `labels` list (only the name is read). -/
structure Label where
  name : String
deriving DecidableEq, Repr

/-- A raw PR item from the GitHub Search API, restricted to the fields
app.py reads.  Fields the code accesses with a `.get` default are plain
values here, with the default standing for a missing key ("" for strings,
[] for lists, false for the draft flag). -/
structure PR where
  id : Nat
  userLogin : String
  assignees : List User
  labels : List Label
  draft : Bool
  repositoryUrl : String
  pullRequestUrl : String
  title : String
  createdAt : String
  htmlUrl : String
deriving DecidableEq, Repr

/-- The reviewer_info dict built by get_check_status (app.py 237-240,
257-262). -/
structure ReviewerInfo where
  requested_reviewers : List String
  requested_teams : List String
deriving DecidableEq, Repr

/-- One element of the check-runs response (app.py 306-307): both fields
are read with `.get`, so a missing key is `none`. -/
structure CheckRun where
  status : Option String
  conclusion : Option String
deriving DecidableEq, Repr

/-- The full PR detail response (app.py 254-265), restricted to the fields
read: requested reviewers, requested teams and the head commit sha
(sha missing or empty is falsy, modelled by the empty string). -/
structure FullPR where
  requested_reviewers : List String
  requested_teams : List String
  headSha : String
deriving DecidableEq, Repr

/-- The network responses get_check_status would receive, in fetch order.
`none` stands for a non-2xx response (or a caught exception, which the
code treats the same way: it falls back to the default result). -/
structure CheckEnv where
  detail : Option FullPR
  check_runs_resp : Option (List CheckRun)
  legacy_state : Option String
deriving DecidableEq, Repr

/-! ## PriorityClassifier: determine_pr_status (app.py 453-527) -/

/-- app.py 472-473: the author comparison lower-cases both sides and an
empty username makes the test False. -/
def is_my_pr_sig (author username : String) : Bool :=
  username != "" && (lowerStr author == lowerStr username)

/-- app.py 476-477: the assignee comparison lower-cases both sides and an
empty username makes the test False. -/
def is_assigned_sig (assignees : List User) (username : String) : Bool :=
  username != "" && assignees.any (fun a => lowerStr a.login == lowerStr username)

/-- app.py 480: a query label indicates a review-request search when it
contains "review-requested:@me" or "review requested", case-insensitively. -/
def is_review_request_query_sig (queryLabel : String) : Bool :=
  strContains (lowerStr queryLabel) "review-requested:@me" ||
  strContains (lowerStr queryLabel) "review requested"

/-- app.py 483-496: the individual-review signal.  With reviewer info
supplied it is an exact, case-sensitive membership test of the username in
the requested reviewer logins, and it is only ever set on a review-request
query label; without reviewer info a review-request query label is the
conservative fallback that sets it unconditionally. -/
def individual_review_sig (queryLabel username : String)
    (reviewerInfo : Option ReviewerInfo) : Bool :=
  match reviewerInfo with
  | some ri =>
    is_review_request_query_sig queryLabel &&
      (username != "" && ri.requested_reviewers.contains username)
  | none => is_review_request_query_sig queryLabel

/-- app.py 492-493: the team-review signal; set only when reviewer info is
supplied, on a review-request query label, when teams were requested and
the viewer was not individually requested. -/
def team_review_sig (queryLabel username : String)
    (reviewerInfo : Option ReviewerInfo) : Bool :=
  match reviewerInfo with
  | some ri =>
    is_review_request_query_sig queryLabel &&
      (!ri.requested_teams.isEmpty &&
        !(individual_review_sig queryLabel username (some ri)))
  | none => false

/-- app.py 514-516: lower-case every label name, join them with single
spaces, and test the four keywords as substrings of the joined string. -/
def labels_hit (pr : PR) : Bool :=
  ["changes", "requested", "wip", "blocked"].any
    (fun w => strContains (String.intercalate " " (pr.labels.map (fun l => lowerStr l.name))) w)

/-- app.py 520: the originating query label contains "approved",
case-insensitively. -/
def approved_hit (queryLabel : String) : Bool :=
  strContains (lowerStr queryLabel) "approved"

/-- determine_pr_status, app.py 453-527.  The local booleans of the source
are the signal definitions above; the branch structure is the source
branch structure (lines 500-527). -/
def determine_pr_status (pr : PR) (queryLabel username : String)
    (reviewerInfo : Option ReviewerInfo) : Priority × String :=
  if individual_review_sig queryLabel username reviewerInfo ||
      is_assigned_sig pr.assignees username then
    if is_assigned_sig pr.assignees username &&
        individual_review_sig queryLabel username reviewerInfo then
      (Priority.HIGH, "🔴 Action Needed")
    else if individual_review_sig queryLabel username reviewerInfo then
      (Priority.HIGH, "🔴 Review")
    else
      (Priority.HIGH, "🔴 Assigned")
  else if team_review_sig queryLabel username reviewerInfo then
    (Priority.MEDIUM, "🟡 Team Review")
  else if is_my_pr_sig pr.userLogin username then
    if labels_hit pr then (Priority.MEDIUM, "🟡 Changes Needed")
    else if approved_hit queryLabel then (Priority.LOW, "🟢 Approved")
    else (Priority.LOW, "🟢 Waiting")
  else (Priority.LOW, "⚪ Watching")

/-! ## Spec-side classifier for claim C1

The spec describes `classify` as an ordered decision list, first match
wins.  `firstMatch` and `rule_list` transcribe that list; the two
classify_spec functions differ only in how the individual/team signals
are derived from a supplied reviewerInfo. -/

/-- First matching rule of an ordered decision list; the default is the
final "otherwise" rule (LOW, Watching).  (Follows the words of the spec,
section 4.3; the emoji prefixes are the rendered form of the spec label
names.) -/
def firstMatch : List (Bool × (Priority × String)) → Priority × String
  | [] => (Priority.LOW, "⚪ Watching")
  | (c, r) :: rest => if c then r else firstMatch rest

/-- The ordered decision list of the spec (section 4.3, rules 1-7), over
the derived signals. -/
def rule_list (indiv assigned team author labelsKw approvedKw : Bool) :
    List (Bool × (Priority × String)) :=
  [ (indiv && assigned, (Priority.HIGH, "🔴 Action Needed")),
    (indiv && !assigned, (Priority.HIGH, "🔴 Review")),
    (assigned && !indiv, (Priority.HIGH, "🔴 Assigned")),
    (team && !indiv, (Priority.MEDIUM, "🟡 Team Review")),
    (author && labelsKw, (Priority.MEDIUM, "🟡 Changes Needed")),
    (author && approvedKw, (Priority.LOW, "🟢 Approved")),
    (author, (Priority.LOW, "🟢 Waiting")) ]

/-- Claim C1 as written: with reviewerInfo supplied, "individually
requested" is membership of the viewer in the requested reviewers and
"team review requested" is the requested team list being non-empty,
read directly off the supplied reviewerInfo. -/
def classify_spec_claim (pr : PR) (queryLabel username : String)
    (ri : ReviewerInfo) : Priority × String :=
  firstMatch (rule_list
    (username != "" && ri.requested_reviewers.contains username)
    (is_assigned_sig pr.assignees username)
    (!ri.requested_teams.isEmpty)
    (is_my_pr_sig pr.userLogin username)
    (labels_hit pr)
    (approved_hit queryLabel))

/-- Claim C1 amended: the same decision list, but the individual and team
signals are additionally gated on the originating query label indicating a
review-request search, as the code derives them. -/
def classify_spec_gated (pr : PR) (queryLabel username : String)
    (ri : ReviewerInfo) : Priority × String :=
  firstMatch (rule_list
    (individual_review_sig queryLabel username (some ri))
    (is_assigned_sig pr.assignees username)
    (team_review_sig queryLabel username (some ri))
    (is_my_pr_sig pr.userLogin username)
    (labels_hit pr)
    (approved_hit queryLabel))

/-! ## CheckStatusResolver: get_check_status (app.py 217-327) -/

/-- The reviewer_info default (app.py 237-240). -/
def emptyReviewerInfo : ReviewerInfo := ⟨[], []⟩

/-- The legacy combined-status mapping (app.py 295-301): a dict lookup
with default "⚪". -/
def legacy_status_map (state : String) : String :=
  if state == "success" then "✅"
  else if state == "pending" then "🟡"
  else if state == "failure" then "❌"
  else if state == "error" then "❌"
  else "⚪"

/-- Python truthiness of an Option String (app.py 318 filters `if c`):
a missing conclusion and an empty-string conclusion are both falsy. -/
def truthyConclusion : Option String → Bool
  | none => false
  | some s => s != ""

/-- get_check_status, app.py 217-327, as a function of the PR item and the
responses the code would receive.  Emoji results: ✅ success, 🟡 pending,
❌ failing, ⚪ unknown. -/
def get_check_status (pr : PR) (env : CheckEnv) : String × ReviewerInfo :=
  if !(pyTruthy pr.pullRequestUrl) then ("⚪", emptyReviewerInfo)
  else
    match env.detail with
    | none => ("⚪", emptyReviewerInfo)
    | some full =>
      let ri : ReviewerInfo := ⟨full.requested_reviewers, full.requested_teams⟩
      if !(pyTruthy full.headSha) then ("⚪", ri)
      else if !(pyTruthy pr.repositoryUrl) then ("⚪", ri)
      else
        match env.check_runs_resp with
        | none => ("⚪", ri)
        | some check_runs =>
          if check_runs.isEmpty then
            match env.legacy_state with
            | none => ("⚪", ri)
            | some st => (legacy_status_map (lowerStr st), ri)
          else
            let conclusions := check_runs.map (fun r => r.conclusion)
            let statuses := check_runs.map (fun r => r.status)
            if statuses.contains (some "in_progress") || statuses.contains (some "queued") then
              ("🟡", ri)
            else if conclusions.contains (some "failure") ||
                conclusions.contains (some "timed_out") ||
                conclusions.contains (some "action_required") then
              ("❌", ri)
            else if (conclusions.filter truthyConclusion).all (fun c => c == some "success") then
              ("✅", ri)
            else ("⚪", ri)

/-! ## QueryBuilder: build_queries (app.py 141-182) -/

/-- The filters block of an account configuration (app.py 154-163),
with the `.get` defaults already applied for scope and repos; `none`
for queries means the key was absent and the default single query is
used. -/
structure Filters where
  scope : String
  repos : List String
  queries : Option (List (String × String))
deriving Repr

/-- An account configuration, restricted to the fields the fetch path
reads (app.py 339-358). -/
structure AccountCfg where
  label : String
  token_env_var : Option String
  api_base : String
  filters : Filters
deriving Repr

/-- build_queries, app.py 141-182 (label and query-string defaults are
taken as already applied in the Filters value). -/
def build_queries (filters : Filters) : List (String × String) :=
  let qcs := filters.queries.getD [("Review Requested", "is:pr is:open review-requested:@me")]
  qcs.map (fun q =>
    let parts := pySplitWs q.2
    let parts2 :=
      if filters.scope == "specific" then
        parts ++ filters.repos.map (fun r => "repo:" ++ r)
      else parts
    (q.1, String.intercalate " " parts2))

/-! ## AccountFetcher: fetch_prs (app.py 329-406) -/

/-- The outcome of one search-endpoint request: a 2xx with items, a
non-2xx with a status code and a message extracted from the body, or a
caught exception. -/
inductive QueryOutcome where
  | ok (prs : List PR)
  | httpError (status : Nat) (message : String)
  | exc (message : String)
deriving Repr

/-- The PR list a query outcome contributes (app.py 379-401): the items on
success, the empty list substituted on failure. -/
def outcomePRs : QueryOutcome → List PR
  | .ok prs => prs
  | .httpError _ _ => []
  | .exc _ => []

/-- Did the outcome take one of the failure branches (each of which emits
one notification, app.py 393 and 397)? -/
def outcomeFailed : QueryOutcome → Bool
  | .ok _ => false
  | .httpError _ _ => true
  | .exc _ => true

/-- The (result tuple, notifications) contribution of the query at index
`i` with label and query string `q` (the loop body, app.py 372-401). -/
def fetch_query_step (account_label username : String)
    (respond : Nat → QueryOutcome) (i : Nat) (q : String × String) :
    (String × String × String × List PR) × List String :=
  match respond i with
  | .ok prs => ((account_label, username, q.1, prs), [])
  | .httpError code msg =>
    ((account_label, username, q.1, []),
      ["API error for " ++ account_label ++ " (" ++ q.1 ++ "): HTTP " ++
        toString code ++ msg])
  | .exc msg =>
    ((account_label, username, q.1, []),
      ["Error fetching " ++ q.1 ++ " for " ++ account_label ++ ": " ++ msg])

/-- fetch_prs, app.py 329-406, as a function of the account configuration,
the process environment, the resolved username (get_authenticated_user is
a cached identity lookup, modelled by its result) and the search response
for each query index.  Returns the result tuples and the notification
messages surfaced. -/
def fetch_prs (account : AccountCfg) (env : String → Option String)
    (username : String) (respond : Nat → QueryOutcome) :
    List (String × String × String × List PR) × List String :=
  let account_label := account.label
  match account.token_env_var with
  | none => ([], ["No token_env_var configured for " ++ account_label])
  | some v =>
    let token := (env v).getD ""
    if token == "" then
      ([], ["Token not found in environment variable " ++ v ++ " for " ++ account_label])
    else
      let queries := build_queries account.filters
      let processed := queries.enum.map
        (fun p => fetch_query_step account_label username respond p.1 p.2)
      (processed.map (fun p => p.1), (processed.map (fun p => p.2)).flatten)

/-! ## Aggregator: refresh_data (app.py 529-727) -/

/-- extract_repo_name, app.py 434-451. -/
def extract_repo_name (repoUrl : String) : String :=
  let parts := pySplitSlash (rstripSlash repoUrl)
  if 2 ≤ parts.length then
    parts.getD (parts.length - 2) "" ++ "/" ++ parts.getD (parts.length - 1) ""
  else repoUrl

/-- The row_data dict built per retained PR (app.py 580-598).  The age
string is a wall-clock rendering of created_at and is kept here as the
raw created_at value; the fields popped at app.py 663-668 after the
refined pass are simply retained. -/
structure RowData where
  priority : Priority
  status : String
  account : String
  account_username : String
  state : String
  repo : String
  title : String
  author : String
  created_at : String
  url : String
  key : String
  checks : String
  pr : PR
  original_query_label : String
  assignees : List User
  query_label : String
  prId : Nat
  reviewer_info : Option ReviewerInfo
deriving DecidableEq, Repr

/-- Build the row_data dict for one retained PR (app.py 564-598): the
coarse classification pass runs here, with no reviewer info. -/
def mkRowData (account_label username query_label : String) (pr : PR) : RowData :=
  let ps := determine_pr_status pr query_label username none
  { priority := ps.1
    status := ps.2
    account := account_label
    account_username := username
    state := if pr.draft then query_label ++ " (Draft)" else query_label
    repo := extract_repo_name pr.repositoryUrl
    title := pr.title
    author := pr.userLogin
    created_at := pr.createdAt
    url := pr.htmlUrl
    key := account_label ++ "_" ++ toString pr.id
    checks := "⚪"
    pr := pr
    original_query_label := query_label
    assignees := pr.assignees
    query_label := query_label
    prId := pr.id
    reviewer_info := none }

/-- One (account_label, username, query_label, prs) tuple returned by
fetch_prs (app.py 552). -/
structure AccountResult where
  account : String
  username : String
  query_label : String
  prs : List PR
deriving Repr

/-- One PR of the flattened stream, tagged with the tuple it came from. -/
structure Entry where
  account : String
  username : String
  query_label : String
  pr : PR
deriving Repr

/-- The aggregation state of the loop at app.py 548-599: the seen_prs id
set and the pr_rows_by_query insertion-ordered dict. -/
structure AggState where
  seen : List Nat
  buckets : List (String × List RowData)
deriving Repr

/-- Dict access `pr_rows_by_query[query_label] = []` on a missing key
(app.py 553-554): append an empty bucket, preserving insertion order. -/
def ensureBucket : List (String × List RowData) → String → List (String × List RowData)
  | [], l => [(l, [])]
  | (l₀, rs) :: rest, l =>
    if l₀ == l then (l₀, rs) :: rest else (l₀, rs) :: ensureBucket rest l

/-- Dict access `pr_rows_by_query[query_label].append(row_data)`
(app.py 599): append the row at the end of its query-label bucket. -/
def addToBucket : List (String × List RowData) → String → RowData → List (String × List RowData)
  | [], l, r => [(l, [r])]
  | (l₀, rs) :: rest, l, r =>
    if l₀ == l then (l₀, rs ++ [r]) :: rest else (l₀, rs) :: addToBucket rest l r

/-- The body of the inner loop (app.py 556-599): skip an already-seen id,
otherwise record the id and append the freshly built row. -/
def stepEntry (st : AggState) (e : Entry) : AggState :=
  if st.seen.contains e.pr.id then st
  else
    { seen := e.pr.id :: st.seen,
      buckets := addToBucket st.buckets e.query_label
        (mkRowData e.account e.username e.query_label e.pr) }

/-- Run the inner loop over a list of entries. -/
def foldEntries : AggState → List Entry → AggState
  | st, [] => st
  | st, e :: es => foldEntries (stepEntry st e) es

/-- The entries contributed by one fetch-result tuple, in stream order. -/
def tupleEntries (t : AccountResult) : List Entry :=
  t.prs.map (fun pr => ⟨t.account, t.username, t.query_label, pr⟩)

/-- Process one fetch-result tuple (app.py 552-599): make sure the bucket
for its query label exists, then walk its PRs in order. -/
def processTuple (st : AggState) (t : AccountResult) : AggState :=
  foldEntries { st with buckets := ensureBucket st.buckets t.query_label }
    (tupleEntries t)

/-- Process the whole flattened fetch-result list, in order. -/
def processResults : AggState → List AccountResult → AggState
  | st, [] => st
  | st, t :: ts => processResults (processTuple st t) ts

/-- The dedup-and-coarse-classify pass of refresh_data over all results
(app.py 548-599), from the empty state. -/
def buildRows (results : List AccountResult) : AggState :=
  processResults ⟨[], []⟩ results

/-- The flattened stream of raw PR payloads, in stream order. -/
def flattenResults : List AccountResult → List Entry
  | [] => []
  | t :: ts => tupleEntries t ++ flattenResults ts

/-- The rows stored across an ordered bucket list. -/
def bucketRows (b : List (String × List RowData)) : List RowData :=
  (b.map (fun x => x.2)).flatten

/-- All rows of the snapshot (app.py 601-604 flattens the buckets the same
way). -/
def allRows (st : AggState) : List RowData :=
  bucketRows st.buckets

/-- The snapshot rows carrying a given platform id. -/
def rowsWithId (st : AggState) (i : Nat) : List RowData :=
  (allRows st).filter (fun r => r.prId == i)

/-- The row the first stream occurrence of platform id `i` gives rise to:
a singleton when the id occurs in the entry stream (built from the first
occurrence, hence classified coarsely under the first-seen query label),
empty otherwise. -/
def firstRowOf (es : List Entry) (i : Nat) : List RowData :=
  match es.find? (fun e => e.pr.id == i) with
  | some e => [mkRowData e.account e.username e.query_label e.pr]
  | none => []

/-- The enrichment step for one row (app.py 628-638): when the row's
account has resolvable credentials the check status and reviewer info
fetched for it are stored on the row; otherwise the row is untouched. -/
def enrichRow (row : RowData) (fetched : Option (String × ReviewerInfo)) : RowData :=
  match fetched with
  | some f => { row with checks := f.1, reviewer_info := some f.2 }
  | none => row

/-- The refined classification pair of a row (app.py 646-654): when
reviewer info was stored, the classifier is re-invoked on a PR object
rebuilt from only the author login and the stored assignees (so with an
empty label list), the stored originating query label and the full
reviewer info; otherwise the coarse pair stands. -/
def refined_pair (row : RowData) : Priority × String :=
  match row.reviewer_info with
  | some ri =>
    determine_pr_status
      { id := 0, userLogin := row.author, assignees := row.assignees,
        labels := [], draft := false, repositoryUrl := "",
        pullRequestUrl := "", title := "", createdAt := "", htmlUrl := "" }
      row.original_query_label row.account_username (some ri)
  | none => (row.priority, row.status)

/-- The per-row update loop body of refresh_data (app.py 641-668): replace
the coarse pair by the refined pair when reviewer info is present, then
apply the CI-failure escalation: the author rows whose checks resolved to
❌ are forced to (HIGH, Checks Failing). -/
def updateRow (row : RowData) : RowData :=
  let is_my_pr := is_my_pr_sig row.author row.account_username
  let rp := refined_pair row
  let row1 := { row with priority := rp.1, status := rp.2 }
  if is_my_pr && (row.checks == "❌") then
    { row1 with priority := Priority.HIGH, status := "🔴 Checks Failing" }
  else row1

/-! ## Theorems -/

/-- C1 counterexample: with reviewerInfo supplied, the code gates the
individual and team signals on the query label indicating a review-request
search.  For the query label "My PRs" and a reviewerInfo that lists the
viewer as an individually requested reviewer, the decision list of the
claim picks rule 2, (HIGH, Review), but the code returns (LOW, Watching):
the classifier does not return the first matching rule of the claim's
list. -/
theorem C1_counterexample :
    determine_pr_status ⟨3, "bob", [], [], false, "", "", "", "", ""⟩
        "My PRs" "alice" (some ⟨["alice"], []⟩) = (Priority.LOW, "⚪ Watching") ∧
    classify_spec_claim ⟨3, "bob", [], [], false, "", "", "", "", ""⟩
        "My PRs" "alice" ⟨["alice"], []⟩ = (Priority.HIGH, "🔴 Review") ∧
    determine_pr_status ⟨3, "bob", [], [], false, "", "", "", "", ""⟩
        "My PRs" "alice" (some ⟨["alice"], []⟩) ≠
      classify_spec_claim ⟨3, "bob", [], [], false, "", "", "", "", ""⟩
        "My PRs" "alice" ⟨["alice"], []⟩ := by
  decide

/-- C1 (amended): with reviewerInfo supplied, determine_pr_status returns
the first matching rule of the ordered decision list of the claim, with the
individual-requested and team-requested signals derived as the code derives
them (gated on the query label indicating a review-request search); being a
total function, it returns exactly one (tier, label) pair for every input
combination. -/
theorem C1_decision_list (pr : PR) (queryLabel username : String) (ri : ReviewerInfo) :
    determine_pr_status pr queryLabel username (some ri) =
      classify_spec_gated pr queryLabel username ri := by
  cases hI : individual_review_sig queryLabel username (some ri) <;>
  cases hA : is_assigned_sig pr.assignees username <;>
  cases hT : team_review_sig queryLabel username (some ri) <;>
  cases hM : is_my_pr_sig pr.userLogin username <;>
  cases hL : labels_hit pr <;>
  cases hP : approved_hit queryLabel <;>
  simp [determine_pr_status, classify_spec_gated, rule_list, firstMatch,
    hI, hA, hT, hM, hL, hP]

/-- C2: for every row whose resolved account username equals the PR author
case-insensitively and whose resolved CI status is failing (❌), the
per-row update loop ends with priority HIGH and status "Checks Failing",
whatever the coarse or refined classification produced: the escalation is
applied to the row after the refined replacement and overwrites it. -/
theorem C2_checks_failing_escalation (row : RowData)
    (hu : row.account_username ≠ "")
    (ha : lowerStr row.author = lowerStr row.account_username)
    (hc : row.checks = "❌") :
    updateRow row = { row with priority := Priority.HIGH, status := "🔴 Checks Failing" } := by
  have hmy : is_my_pr_sig row.author row.account_username = true := by
    simp [is_my_pr_sig, ha, hu]
  unfold updateRow
  simp [hmy, hc]

/-- C2 witness: a LOW "Waiting" row authored by the viewer (in a different
letter case) with failing checks is escalated to (HIGH, Checks Failing). -/
theorem C2_witness :
    (updateRow
      { priority := Priority.LOW
        status := "🟢 Waiting"
        account := "a"
        account_username := "alice"
        state := "s"
        repo := "r"
        title := "t"
        author := "ALICE"
        created_at := ""
        url := ""
        key := "k"
        checks := "❌"
        pr := ⟨1, "ALICE", [], [], false, "", "", "", "", ""⟩
        original_query_label := "q"
        assignees := []
        query_label := "q"
        prId := 1
        reviewer_info := none }).priority = Priority.HIGH ∧
    (updateRow
      { priority := Priority.LOW
        status := "🟢 Waiting"
        account := "a"
        account_username := "alice"
        state := "s"
        repo := "r"
        title := "t"
        author := "ALICE"
        created_at := ""
        url := ""
        key := "k"
        checks := "❌"
        pr := ⟨1, "ALICE", [], [], false, "", "", "", "", ""⟩
        original_query_label := "q"
        assignees := []
        query_label := "q"
        prId := 1
        reviewer_info := none }).status = "🔴 Checks Failing" := by
  have h := C2_checks_failing_escalation
    { priority := Priority.LOW
      status := "🟢 Waiting"
      account := "a"
      account_username := "alice"
      state := "s"
      repo := "r"
      title := "t"
      author := "ALICE"
      created_at := ""
      url := ""
      key := "k"
      checks := "❌"
      pr := ⟨1, "ALICE", [], [], false, "", "", "", "", ""⟩
      original_query_label := "q"
      assignees := []
      query_label := "q"
      prId := 1
      reviewer_info := none }
    (by decide) (by decide) (by decide)
  rw [h]
  exact ⟨rfl, rfl⟩

/-- C3 counterexample: a PR found by the "Review Requested" query, where
the viewer is neither the author nor assigned and the enriched reviewer
info shows no individual request and no team request.  The coarse pass
(no reviewer info, conservative fallback) yields HIGH, yet after
enrichment the refined pass replaces it by LOW: the refined pass does
assign a priority below HIGH to a coarse-HIGH row. -/
theorem C3_counterexample :
    (determine_pr_status ⟨1, "bob", [], [], false, "", "", "", "", ""⟩
        "Review Requested" "alice" none).1 = Priority.HIGH ∧
    (updateRow (enrichRow
        (mkRowData "acct" "alice" "Review Requested"
          ⟨1, "bob", [], [], false, "", "", "", "", ""⟩)
        (some ("⚪", ⟨[], []⟩)))).priority = Priority.LOW := by
  decide

/-- C3 (amended): refinement is a full replace, so a coarse-HIGH row can
end below HIGH; what does hold is that the CI-failure escalation, applied
strictly after the refined replacement, never moves a row away from HIGH:
the final priority value is never larger (less urgent) than the refined
pair's priority value. -/
theorem C3_escalation_monotone (row : RowData) :
    (updateRow row).priority.val ≤ (refined_pair row).1.val := by
  unfold updateRow
  cases h : (is_my_pr_sig row.author row.account_username && (row.checks == "❌"))
  · simp [h]
  · simp [h]
    cases (refined_pair row).1 <;> simp [Priority.val]

/-- C4 counterexample: a viewer-authored PR carrying the label "wip".  The
coarse pass classifies it (MEDIUM, Changes Needed) by rule 5, but the
refined pass rebuilds the PR object from only the author and assignees,
so the labels are gone and the refined pass yields (LOW, Waiting), not
(MEDIUM, Changes Needed) as the claim states. -/
theorem C4_counterexample :
    (mkRowData "acct" "alice" "My PRs"
        ⟨2, "alice", [], [⟨"wip"⟩], false, "", "", "", "", ""⟩).status = "🟡 Changes Needed" ∧
    (updateRow (enrichRow
        (mkRowData "acct" "alice" "My PRs"
          ⟨2, "alice", [], [⟨"wip"⟩], false, "", "", "", "", ""⟩)
        (some ("⚪", ⟨[], []⟩)))).priority = Priority.LOW ∧
    (updateRow (enrichRow
        (mkRowData "acct" "alice" "My PRs"
          ⟨2, "alice", [], [⟨"wip"⟩], false, "", "", "", "", ""⟩)
        (some ("⚪", ⟨[], []⟩)))).status = "🟢 Waiting" := by
  decide

/-- C4 (amended): the refined pass applies the classifier to the row's
author, assignees, originating query label and reviewerInfo, but with an
empty label list, so the Changes-Needed rule can never fire there: every
enriched viewer-authored row on which no earlier rule fires and whose
query label does not contain "approved" is reclassified (LOW, Waiting) by
the refined pass, independent of the labels the PR carried. -/
theorem C4_refined_drops_labels (row : RowData) (ri : ReviewerInfo)
    (hri : row.reviewer_info = some ri)
    (hu : row.account_username ≠ "")
    (ha : lowerStr row.author = lowerStr row.account_username)
    (hind : individual_review_sig row.original_query_label row.account_username (some ri) = false)
    (hasg : is_assigned_sig row.assignees row.account_username = false)
    (hteam : team_review_sig row.original_query_label row.account_username (some ri) = false)
    (happ : approved_hit row.original_query_label = false)
    (hchk : row.checks ≠ "❌") :
    (updateRow row).priority = Priority.LOW ∧ (updateRow row).status = "🟢 Waiting" := by
  have hlab : labels_hit
      { id := 0, userLogin := row.author, assignees := row.assignees,
        labels := [], draft := false, repositoryUrl := "",
        pullRequestUrl := "", title := "", createdAt := "", htmlUrl := "" } = false := by
    simp only [labels_hit]
    decide
  have hrp : refined_pair row = (Priority.LOW, "🟢 Waiting") := by
    unfold refined_pair
    rw [hri]
    unfold determine_pr_status
    simp [hind, hasg, hteam, happ, hlab, is_my_pr_sig, hu, ha]
  unfold updateRow
  simp [hrp, hchk]

/-- C4 witness: the concrete viewer-authored "wip" row of the
counterexample satisfies the amended hypotheses and is reclassified
(LOW, Waiting) by the refined pass. -/
theorem C4_witness :
    (updateRow (enrichRow
        (mkRowData "acct2" "alice" "My Open PRs"
          ⟨9, "alice", [], [⟨"wip"⟩], false, "", "", "", "", ""⟩)
        (some ("✅", ⟨[], []⟩)))).priority = Priority.LOW ∧
    (updateRow (enrichRow
        (mkRowData "acct2" "alice" "My Open PRs"
          ⟨9, "alice", [], [⟨"wip"⟩], false, "", "", "", "", ""⟩)
        (some ("✅", ⟨[], []⟩)))).status = "🟢 Waiting" :=
  C4_refined_drops_labels _ ⟨[], []⟩ (by decide) (by decide) (by decide)
    (by decide) (by decide) (by decide) (by decide) (by decide)

/-- C6: when the detail fetch succeeds (with a truthy PR url, head sha and
repository url) and the check-runs query succeeds with zero check runs,
the resolver falls back to the legacy combined-status endpoint for the
same commit and maps its state: success to ✅, pending to 🟡, failure and
error to ❌, anything else to ⚪ (unknown). -/
theorem C6_legacy_fallback (pr : PR) (full : FullPR) (st : String)
    (h1 : pyTruthy pr.pullRequestUrl = true)
    (h2 : pyTruthy full.headSha = true)
    (h3 : pyTruthy pr.repositoryUrl = true) :
    (lowerStr st = "success" →
      (get_check_status pr ⟨some full, some [], some st⟩).1 = "✅") ∧
    (lowerStr st = "pending" →
      (get_check_status pr ⟨some full, some [], some st⟩).1 = "🟡") ∧
    ((lowerStr st = "failure" ∨ lowerStr st = "error") →
      (get_check_status pr ⟨some full, some [], some st⟩).1 = "❌") ∧
    (lowerStr st ≠ "success" → lowerStr st ≠ "pending" →
      lowerStr st ≠ "failure" → lowerStr st ≠ "error" →
      (get_check_status pr ⟨some full, some [], some st⟩).1 = "⚪") := by
  have hkey : (get_check_status pr ⟨some full, some [], some st⟩).1 =
      legacy_status_map (lowerStr st) := by
    unfold get_check_status
    simp [h1, h2, h3]
  refine ⟨?_, ?_, ?_, ?_⟩
  · intro h
    rw [hkey]
    simp [legacy_status_map, h]
  · intro h
    rw [hkey]
    simp [legacy_status_map, h]
  · rintro (h | h) <;> rw [hkey] <;> simp [legacy_status_map, h]
  · intro h₁ h₂ h₃ h₄
    rw [hkey]
    simp [legacy_status_map, h₁, h₂, h₃, h₄]

/-- C6 witness: zero check runs and legacy state "pending" resolve to 🟡
(pending), the example of the claim. -/
theorem C6_witness :
    (get_check_status ⟨1, "a", [], [], false, "r", "u", "", "", ""⟩
        ⟨some ⟨[], [], "sha"⟩, some [], some "pending"⟩).1 = "🟡" := by
  have h := C6_legacy_fallback ⟨1, "a", [], [], false, "r", "u", "", "", ""⟩
    ⟨[], [], "sha"⟩ "pending" (by decide) (by decide) (by decide)
  exact h.2.1 (by decide)

/-- C7 counterexample: one check run whose conclusion is absent.  The run
count is non-zero, no run is in progress or queued, no conclusion is
failure, timed_out or action_required, and no conclusion equals "success"
(every conclusion is absent) — the claim says the resolved status is
unknown (⚪), yet the code's vacuous all-success test returns ✅. -/
theorem C7_counterexample :
    ([(⟨some "completed", none⟩ : CheckRun)].isEmpty = false) ∧
    (([(⟨some "completed", none⟩ : CheckRun)].map (fun r => r.status)).contains
        (some "in_progress") = false) ∧
    (([(⟨some "completed", none⟩ : CheckRun)].map (fun r => r.status)).contains
        (some "queued") = false) ∧
    (([(⟨some "completed", none⟩ : CheckRun)].map (fun r => r.conclusion)).contains
        (some "failure") = false) ∧
    (([(⟨some "completed", none⟩ : CheckRun)].map (fun r => r.conclusion)).contains
        (some "timed_out") = false) ∧
    (([(⟨some "completed", none⟩ : CheckRun)].map (fun r => r.conclusion)).contains
        (some "action_required") = false) ∧
    (([(⟨some "completed", none⟩ : CheckRun)].map (fun r => r.conclusion)).contains
        (some "success") = false) ∧
    (get_check_status ⟨1, "a", [], [], false, "r", "u", "", "", ""⟩
        ⟨some ⟨[], [], "sha"⟩, some [⟨some "completed", none⟩], none⟩).1 = "✅" ∧
    ("✅" : String) ≠ "⚪" := by
  decide

/-- C7 (amended): with at least one check run, none in progress or queued,
no failing conclusion, and at least one present (truthy) conclusion other
than "success", the resolved status is unknown (⚪).  When every
conclusion is absent or empty the all-success test is vacuously true and
the code returns ✅ instead, as the counterexample shows. -/
theorem C7_mixed_unknown (pr : PR) (full : FullPR) (runs : List CheckRun)
    (legacy : Option String)
    (h1 : pyTruthy pr.pullRequestUrl = true)
    (h2 : pyTruthy full.headSha = true)
    (h3 : pyTruthy pr.repositoryUrl = true)
    (hne : runs.isEmpty = false)
    (hs1 : (runs.map (fun r => r.status)).contains (some "in_progress") = false)
    (hs2 : (runs.map (fun r => r.status)).contains (some "queued") = false)
    (hc1 : (runs.map (fun r => r.conclusion)).contains (some "failure") = false)
    (hc2 : (runs.map (fun r => r.conclusion)).contains (some "timed_out") = false)
    (hc3 : (runs.map (fun r => r.conclusion)).contains (some "action_required") = false)
    (hmix : ∃ c ∈ runs.map (fun r => r.conclusion),
      truthyConclusion c = true ∧ c ≠ some "success") :
    (get_check_status pr ⟨some full, some runs, legacy⟩).1 = "⚪" := by
  have hnex : ∀ (f : CheckRun → Option String) (x : Option String),
      (runs.map f).contains x = false → ¬∃ a ∈ runs, f a = x := by
    intro f x hfx h
    obtain ⟨a, hmem, hfa⟩ := h
    have ht : (runs.map f).contains x = true :=
      List.elem_eq_true_of_mem (List.mem_map.mpr ⟨a, hmem, hfa⟩)
    rw [hfx] at ht
    cases ht
  have hs1' := hnex (fun r => r.status) (some "in_progress") hs1
  have hs2' := hnex (fun r => r.status) (some "queued") hs2
  have hc1' := hnex (fun r => r.conclusion) (some "failure") hc1
  have hc2' := hnex (fun r => r.conclusion) (some "timed_out") hc2
  have hc3' := hnex (fun r => r.conclusion) (some "action_required") hc3
  have hall : ((runs.map (fun r => r.conclusion)).filter truthyConclusion).all
      (fun c => c == some "success") = false := by
    obtain ⟨c, hcmem, hct, hcne⟩ := hmix
    rw [List.all_eq_false]
    exact ⟨c, List.mem_filter.mpr ⟨hcmem, hct⟩, by simp [hcne]⟩
  unfold get_check_status
  simp [h1, h2, h3, hne, hall, hs1', hs2', hc1', hc2', hc3']

/-- C7 witness: one completed run with a "neutral" conclusion resolves to
⚪ (unknown). -/
theorem C7_witness :
    (get_check_status ⟨1, "a", [], [], false, "r", "u", "", "", ""⟩
        ⟨some ⟨[], [], "sha"⟩, some [⟨some "completed", some "neutral"⟩], none⟩).1 = "⚪" :=
  C7_mixed_unknown ⟨1, "a", [], [], false, "r", "u", "", "", ""⟩ ⟨[], [], "sha"⟩
    [⟨some "completed", some "neutral"⟩] none
    (by decide) (by decide) (by decide) (by decide) (by decide) (by decide)
    (by decide) (by decide) (by decide)
    ⟨some "neutral", by decide, by decide, by decide⟩

/-- C8: when the originating query label indicates a review-request search
and no reviewer info is supplied (the coarse pass), the classifier treats
the viewer as individually requested: the result is HIGH, with the label
of the individually-requested branch ("Action Needed" when also assigned,
"Review" otherwise).  The actual requested-reviewer and requested-team
lists are only consulted when reviewer info is supplied, since none are
available here. -/
theorem C8_conservative_fallback (pr : PR) (queryLabel username : String)
    (hq : is_review_request_query_sig queryLabel = true) :
    determine_pr_status pr queryLabel username none =
      (Priority.HIGH,
        if is_assigned_sig pr.assignees username then "🔴 Action Needed"
        else "🔴 Review") := by
  unfold determine_pr_status
  simp [individual_review_sig, hq]
  cases h : is_assigned_sig pr.assignees username <;> simp [h]

/-- C8 witness: a PR from the "Review Requested" query, viewer neither
author nor assigned, no reviewer info: classified (HIGH, Review). -/
theorem C8_witness :
    determine_pr_status ⟨5, "bob", [], [], false, "", "", "", "", ""⟩
        "Review Requested" "carol" none = (Priority.HIGH, "🔴 Review") := by
  have h := C8_conservative_fallback ⟨5, "bob", [], [], false, "", "", "", "", ""⟩
    "Review Requested" "carol" (by decide)
  rw [h]
  decide

/-- C10: the author and assignee comparisons lower-case both sides, so a
case variant still counts; the individual-reviewer test is exact and
case-sensitive membership, so a viewer login differing from its
requested-reviewers entry only in letter case is not treated as
individually requested, even though reviewer info is supplied. -/
theorem C10_reviewer_case_sensitivity (username author r : String)
    (assignee : User) (queryLabel : String)
    (hu : username ≠ "")
    (ha : lowerStr author = lowerStr username)
    (hs : lowerStr assignee.login = lowerStr username)
    (hr : lowerStr r = lowerStr username)
    (hrne : r ≠ username) :
    is_my_pr_sig author username = true ∧
    is_assigned_sig [assignee] username = true ∧
    individual_review_sig queryLabel username (some ⟨[r], []⟩) = false := by
  have hne : (username == r) = false := by
    rw [beq_eq_false_iff_ne]
    exact fun h => hrne h.symm
  have hne2 : ¬username = r := fun h => hrne h.symm
  refine ⟨?_, ?_, ?_⟩
  · simp [is_my_pr_sig, ha, hu]
  · simp [is_assigned_sig, hs, hu]
  · simp [individual_review_sig]
    intro _ _
    exact hne2

/-- C10 witness: viewer "Alice"; author "ALICE" and assignee "aLiCe" both
count as the viewer, but the requested reviewer "alice" does not. -/
theorem C10_witness :
    is_my_pr_sig "ALICE" "Alice" = true ∧
    is_assigned_sig [⟨"aLiCe"⟩] "Alice" = true ∧
    individual_review_sig "Review Requested" "Alice" (some ⟨["alice"], []⟩) = false :=
  C10_reviewer_case_sensitivity "Alice" "ALICE" "alice" ⟨"aLiCe"⟩ "Review Requested"
    (by decide) (by decide) (by decide) (by decide) (by decide)

/-! ### Support lemmas for the dedup claim (C5) -/

theorem bucketRows_cons (l₀ : String) (rs : List RowData)
    (tl : List (String × List RowData)) :
    bucketRows ((l₀, rs) :: tl) = rs ++ bucketRows tl := by
  simp [bucketRows]

theorem bucketRows_ensure (b : List (String × List RowData)) (l : String) :
    bucketRows (ensureBucket b l) = bucketRows b := by
  induction b with
  | nil => simp [ensureBucket, bucketRows]
  | cons hd tl ih =>
    obtain ⟨l₀, rs⟩ := hd
    by_cases h : (l₀ == l) = true
    · simp [ensureBucket, h]
    · simp [ensureBucket, h, bucketRows_cons, ih]

theorem filter_addToBucket_neg (p : RowData → Bool) (r : RowData) (hp : p r = false) :
    ∀ (b : List (String × List RowData)) (l : String),
    (bucketRows (addToBucket b l r)).filter p = (bucketRows b).filter p := by
  intro b
  induction b with
  | nil => intro l; simp [addToBucket, bucketRows, hp]
  | cons hd tl ih =>
    intro l
    obtain ⟨l₀, rs⟩ := hd
    by_cases h : (l₀ == l) = true
    · simp [addToBucket, h, bucketRows_cons, hp]
    · simp [addToBucket, h, bucketRows_cons, ih]

theorem filter_addToBucket_pos (p : RowData → Bool) (r : RowData) (hp : p r = true) :
    ∀ (b : List (String × List RowData)) (l : String),
    (bucketRows b).filter p = [] →
    (bucketRows (addToBucket b l r)).filter p = [r] := by
  intro b
  induction b with
  | nil => intro l _; simp [addToBucket, bucketRows, hp]
  | cons hd tl ih =>
    intro l hb
    obtain ⟨l₀, rs⟩ := hd
    rw [bucketRows_cons, List.filter_append] at hb
    obtain ⟨hb1, hb2⟩ := List.append_eq_nil.mp hb
    by_cases h : (l₀ == l) = true
    · simp [addToBucket, h, bucketRows_cons, hp, hb1, hb2]
    · simp [addToBucket, h, bucketRows_cons, hb1, ih _ hb2]

theorem firstRowOf_cons_pos (e : Entry) (es : List Entry) (i : Nat)
    (h : (e.pr.id == i) = true) :
    firstRowOf (e :: es) i = [mkRowData e.account e.username e.query_label e.pr] := by
  unfold firstRowOf
  rw [List.find?_cons]
  simp [h]

theorem firstRowOf_cons_neg (e : Entry) (es : List Entry) (i : Nat)
    (h : (e.pr.id == i) = false) :
    firstRowOf (e :: es) i = firstRowOf es i := by
  unfold firstRowOf
  rw [List.find?_cons]
  simp [h]

theorem firstRowOf_eq_nil (l : List Entry) (i : Nat)
    (h : l.any (fun e => e.pr.id == i) = false) : firstRowOf l i = [] := by
  induction l with
  | nil => simp [firstRowOf]
  | cons e es ih =>
    cases he : (e.pr.id == i) with
    | false =>
      rw [firstRowOf_cons_neg _ _ _ he]
      apply ih
      rw [List.any_cons, he] at h
      simpa using h
    | true =>
      rw [List.any_cons, he] at h
      simp at h

theorem firstRowOf_append (l₁ l₂ : List Entry) (i : Nat) :
    firstRowOf (l₁ ++ l₂) i =
      if l₁.any (fun e => e.pr.id == i) then firstRowOf l₁ i else firstRowOf l₂ i := by
  induction l₁ with
  | nil => simp
  | cons e es ih =>
    cases he : (e.pr.id == i) with
    | true =>
      have h1 := firstRowOf_cons_pos e (es ++ l₂) i he
      have h2 := firstRowOf_cons_pos e es i he
      simp [List.cons_append, h1, h2, he]
    | false =>
      have h1 := firstRowOf_cons_neg e (es ++ l₂) i he
      have h2 := firstRowOf_cons_neg e es i he
      simp [List.cons_append, h1, h2, he, ih]

theorem foldEntries_spec (i : Nat) (es : List Entry) : ∀ (st : AggState),
    (st.seen.contains i = false → rowsWithId st i = []) →
    rowsWithId (foldEntries st es) i =
      (if st.seen.contains i then rowsWithId st i else firstRowOf es i) ∧
    (foldEntries st es).seen.contains i =
      (st.seen.contains i || es.any (fun e => e.pr.id == i)) := by
  induction es with
  | nil =>
    intro st hinv
    refine ⟨?_, by simp [foldEntries]⟩
    cases hc : st.seen.contains i
    · rw [show foldEntries st [] = st from rfl, hinv hc]
      simp [firstRowOf]
    · rw [show foldEntries st [] = st from rfl]
      simp
  | cons e es ih =>
    intro st hinv
    have hfold : foldEntries st (e :: es) = foldEntries (stepEntry st e) es := rfl
    cases hse : st.seen.contains e.pr.id with
    | true =>
      have hstep : stepEntry st e = st := by
        unfold stepEntry
        rw [hse]
        simp
      obtain ⟨ihr, ihs⟩ := ih st hinv
      rw [hfold, hstep]
      cases hci : st.seen.contains i with
      | true =>
        refine ⟨?_, ?_⟩
        · rw [ihr, hci]
          simp
        · rw [ihs, hci]
          simp
      | false =>
        have hne : (e.pr.id == i) = false := by
          cases hx : (e.pr.id == i)
          · rfl
          · exfalso
            have hii : e.pr.id = i := by simpa using hx
            rw [hii, hci] at hse
            cases hse
        refine ⟨?_, ?_⟩
        · rw [ihr, hci, firstRowOf_cons_neg _ _ _ hne]
        · rw [ihs, hci, List.any_cons, hne]
          simp
    | false =>
      have hstep : stepEntry st e =
          ⟨e.pr.id :: st.seen,
           addToBucket st.buckets e.query_label
             (mkRowData e.account e.username e.query_label e.pr)⟩ := by
        unfold stepEntry
        rw [hse]
        simp
      cases hei : (e.pr.id == i) with
      | true =>
        have hii : e.pr.id = i := by simpa using hei
        have hci : st.seen.contains i = false := by rw [← hii]; exact hse
        have hprid : ((mkRowData e.account e.username e.query_label e.pr).prId == i) = true := by
          simpa [mkRowData] using hei
        have hrows1 : rowsWithId (stepEntry st e) i =
            [mkRowData e.account e.username e.query_label e.pr] := by
          rw [hstep]
          exact filter_addToBucket_pos _ _ hprid _ _ (hinv hci)
        have hc1 : (stepEntry st e).seen.contains i = true := by
          rw [hstep]
          show (e.pr.id :: st.seen).contains i = true
          rw [List.contains_cons]
          simp [hii]
        obtain ⟨ihr, ihs⟩ := ih (stepEntry st e) (fun hf => by rw [hc1] at hf; cases hf)
        refine ⟨?_, ?_⟩
        · rw [hfold, ihr, hc1, hrows1, hci, firstRowOf_cons_pos _ _ _ hei]
          simp
        · rw [hfold, ihs, hc1, hci, List.any_cons, hei]
          simp
      | false =>
        have hnei : e.pr.id ≠ i := by simpa using hei
        have hprid : ((mkRowData e.account e.username e.query_label e.pr).prId == i) = false := by
          simpa [mkRowData] using hei
        have hrows1 : rowsWithId (stepEntry st e) i = rowsWithId st i := by
          rw [hstep]
          exact filter_addToBucket_neg _ _ hprid _ _
        have hc1 : (stepEntry st e).seen.contains i = st.seen.contains i := by
          rw [hstep]
          show (e.pr.id :: st.seen).contains i = st.seen.contains i
          rw [List.contains_cons]
          have : (i == e.pr.id) = false := by
            rw [beq_eq_false_iff_ne]
            exact Ne.symm hnei
          rw [this]
          simp
        obtain ⟨ihr, ihs⟩ := ih (stepEntry st e)
          (fun hf => by rw [hc1] at hf; rw [hrows1]; exact hinv hf)
        refine ⟨?_, ?_⟩
        · rw [hfold, ihr, hc1, hrows1, firstRowOf_cons_neg _ _ _ hei]
        · rw [hfold, ihs, hc1, List.any_cons, hei]
          simp

theorem processTuple_spec (i : Nat) (t : AccountResult) (st : AggState)
    (hinv : st.seen.contains i = false → rowsWithId st i = []) :
    rowsWithId (processTuple st t) i =
      (if st.seen.contains i then rowsWithId st i else firstRowOf (tupleEntries t) i) ∧
    (processTuple st t).seen.contains i =
      (st.seen.contains i || (tupleEntries t).any (fun e => e.pr.id == i)) := by
  have hrows : rowsWithId {st with buckets := ensureBucket st.buckets t.query_label} i =
      rowsWithId st i := by
    simp [rowsWithId, allRows, bucketRows_ensure]
  have hseen : ({st with buckets := ensureBucket st.buckets t.query_label} : AggState).seen =
      st.seen := rfl
  obtain ⟨h1, h2⟩ := foldEntries_spec i (tupleEntries t)
    {st with buckets := ensureBucket st.buckets t.query_label}
    (fun hf => by rw [hseen] at hf; rw [hrows]; exact hinv hf)
  rw [hseen, hrows] at h1
  rw [hseen] at h2
  exact ⟨h1, h2⟩

theorem processResults_spec (i : Nat) (ts : List AccountResult) : ∀ (st : AggState),
    (st.seen.contains i = false → rowsWithId st i = []) →
    rowsWithId (processResults st ts) i =
      (if st.seen.contains i then rowsWithId st i else firstRowOf (flattenResults ts) i) ∧
    (processResults st ts).seen.contains i =
      (st.seen.contains i || (flattenResults ts).any (fun e => e.pr.id == i)) := by
  induction ts with
  | nil =>
    intro st hinv
    refine ⟨?_, by simp [processResults, flattenResults]⟩
    cases hc : st.seen.contains i
    · rw [show processResults st [] = st from rfl, hinv hc]
      simp [firstRowOf, flattenResults]
    · rw [show processResults st [] = st from rfl]
      simp
  | cons t ts ih =>
    intro st hinv
    have hpr : processResults st (t :: ts) = processResults (processTuple st t) ts := rfl
    obtain ⟨ht1, ht2⟩ := processTuple_spec i t st hinv
    have hinv' : (processTuple st t).seen.contains i = false →
        rowsWithId (processTuple st t) i = [] := by
      intro hf
      rw [ht2] at hf
      have hsc : st.seen.contains i = false := by
        cases hx : st.seen.contains i
        · rfl
        · rw [hx] at hf; cases hf
      have hany : (tupleEntries t).any (fun e => e.pr.id == i) = false := by
        rw [hsc] at hf
        simpa using hf
      rw [ht1, hsc, firstRowOf_eq_nil _ _ hany]
      simp
    obtain ⟨ihr, ihs⟩ := ih (processTuple st t) hinv'
    have hflat : flattenResults (t :: ts) = tupleEntries t ++ flattenResults ts := rfl
    cases hc : st.seen.contains i with
    | true =>
      have hc' : (processTuple st t).seen.contains i = true := by
        rw [ht2, hc]
        simp
      refine ⟨?_, ?_⟩
      · rw [hpr, ihr, hc', ht1, hc]
        simp
      · rw [hpr, ihs, hc']
        simp
    | false =>
      cases ha : (tupleEntries t).any (fun e => e.pr.id == i) with
      | true =>
        have hc' : (processTuple st t).seen.contains i = true := by
          rw [ht2, hc, ha]
          simp
        refine ⟨?_, ?_⟩
        · rw [hpr, ihr, hc', ht1, hc, hflat, firstRowOf_append, ha]
          simp
        · rw [hpr, ihs, hc', hflat]
          simp [ha, List.any_append]
      | false =>
        have hc' : (processTuple st t).seen.contains i = false := by
          rw [ht2, hc, ha]
          simp
        refine ⟨?_, ?_⟩
        · rw [hpr, ihr, hc', hflat, firstRowOf_append, ha]
          simp
        · rw [hpr, ihs, hc', hflat]
          simp [ha, List.any_append]

/-- C5: for any flattened fetch-result stream, the snapshot rows carrying
platform id i are exactly the singleton built from the first stream
occurrence of that id (coarsely classified under its first-seen query
label, with that occurrence's account and username) when the id occurs at
all, and empty otherwise: every later occurrence is silently dropped, not
merged. -/
theorem C5_dedup_first_wins (results : List AccountResult) (i : Nat) :
    rowsWithId (buildRows results) i = firstRowOf (flattenResults results) i := by
  have h := (processResults_spec i results ⟨[], []⟩ (fun _ => rfl)).1
  simpa [buildRows] using h

/-! ### Support lemma for the fetch fault-isolation claim (C9) -/

theorem flatten_map_length_filter {α : Type} (q : α → Bool) (f : α → List String)
    (h : ∀ a, (f a).length = if q a then 1 else 0) :
    ∀ (l : List α), ((l.map f).flatten).length = (l.filter q).length := by
  intro l
  induction l with
  | nil => simp
  | cons a l ih =>
    simp only [List.map_cons, List.flatten_cons, List.length_append, ih, List.filter_cons]
    rw [h a]
    cases hq : q a
    · simp
    · simp [Nat.add_comm]

/-- C9: with a configured token variable and a non-empty token, fetch_prs
returns exactly one (account-label, resolved-username, query-label,
raw-PR-list) tuple per built query, in query order; a failed query (non-2xx
or exception) contributes its tuple with the empty list substituted while
every other query still contributes its own outcome, and each failed query
surfaces exactly one notification. -/
theorem C9_fault_isolation (account : AccountCfg) (env : String → Option String)
    (username : String) (respond : Nat → QueryOutcome) (v : String)
    (hv : account.token_env_var = some v)
    (ht : (((env v).getD "") == "") = false) :
    (fetch_prs account env username respond).1 =
      (build_queries account.filters).enum.map
        (fun p => (account.label, username, p.2.1, outcomePRs (respond p.1))) ∧
    (fetch_prs account env username respond).2.length =
      ((build_queries account.filters).enum.filter
        (fun p => outcomeFailed (respond p.1))).length := by
  unfold fetch_prs
  rw [hv]
  simp only [ht, Bool.false_eq_true, if_false]
  constructor
  · simp only [List.map_map]
    apply List.map_congr_left
    intro p _
    cases hr : respond p.1 <;> simp [fetch_query_step, outcomePRs, hr]
  · simp only [List.map_map]
    exact flatten_map_length_filter _ _
      (fun p => by cases hr : respond p.1 <;> simp [fetch_query_step, outcomeFailed, hr]) _

/-- C9 witness: two queries, the second failing with HTTP 403: the result
still has one tuple per query in order, the failed query contributing an
empty list, and exactly one notification is surfaced. -/
theorem C9_witness :
    (fetch_prs ⟨"acct", some "TOK", "https://api.github.com",
        ⟨"all", [], some [("Q1", "is:pr"), ("Q2", "is:pr x")]⟩⟩
      (fun v => if v == "TOK" then some "t" else none) "me"
      (fun i => if i == 0 then QueryOutcome.ok [⟨7, "z", [], [], false, "", "", "", "", ""⟩]
        else QueryOutcome.httpError 403 "")).1
      = [("acct", "me", "Q1", [⟨7, "z", [], [], false, "", "", "", "", ""⟩]),
         ("acct", "me", "Q2", [])] ∧
    (fetch_prs ⟨"acct", some "TOK", "https://api.github.com",
        ⟨"all", [], some [("Q1", "is:pr"), ("Q2", "is:pr x")]⟩⟩
      (fun v => if v == "TOK" then some "t" else none) "me"
      (fun i => if i == 0 then QueryOutcome.ok [⟨7, "z", [], [], false, "", "", "", "", ""⟩]
        else QueryOutcome.httpError 403 "")).2.length = 1 := by
  obtain ⟨h1, h2⟩ := C9_fault_isolation
    ⟨"acct", some "TOK", "https://api.github.com",
      ⟨"all", [], some [("Q1", "is:pr"), ("Q2", "is:pr x")]⟩⟩
    (fun v => if v == "TOK" then some "t" else none) "me"
    (fun i => if i == 0 then QueryOutcome.ok [⟨7, "z", [], [], false, "", "", "", "", ""⟩]
      else QueryOutcome.httpError 403 "")
    "TOK" rfl (by decide)
  constructor
  · rw [h1]
    decide
  · rw [h2]
    decide

end PRMon
